import Mathlib

/-!
Verification of the rovnoui terminal-UI widget toolkit.

Shallow embedding of `src/build/lib/rovnoui/__init__.py` (version 0.4.3).
Strings of the Python source are modelled as `List Char` where character-level
slicing matters (`FixedLabel`), and as opaque `String` lines elsewhere.
Side-effecting `print` calls are modelled as the list of emitted lines;
Python exceptions are modelled with `Except` / `Option`.
-/

namespace Rovnoui

/-- Python slice `s[:n]` for an `Int` bound `n`: a nonnegative bound takes the
first `n` characters; a negative bound `-k` drops the last `k` characters
(clamping to the empty string when `k` exceeds the length). -/
def pySliceTo (s : List Char) (n : Int) : List Char :=
  if 0 ≤ n then s.take n.toNat else s.take (s.length - (-n).toNat)

/-- The method `FixedLabel._construct` from the source:
if `len(text) < limit` pad with trailing spaces to `limit`;
if `len(text) == limit` return `text` unchanged;
otherwise return `text[:limit-3] + '...'`. -/
def fixedLabelConstruct (text : List Char) (limit : Nat) : List Char :=
  if text.length < limit then
    text ++ List.replicate (limit - text.length) ' '
  else if text.length = limit then
    text
  else
    pySliceTo text ((limit : Int) - 3) ++ ['.', '.', '.']

example :
    fixedLabelConstruct "hello world".toList 8 = "hello...".toList := by decide

example :
    fixedLabelConstruct "hello".toList 10 = "hello     ".toList := by decide

example :
    fixedLabelConstruct "abc".toList 0 = "...".toList := by decide

example :
    fixedLabelConstruct "xyz".toList 2 = "xy...".toList := by decide

/-- Claim C2: for every text and every `limit ≥ 3`, `FixedLabel._construct`
returns a string of length exactly `limit`; when `len(text) ≤ limit` the result
starts with `text` (padded with trailing spaces when shorter, unchanged when
equal); when `len(text) > limit` the result ends with `"..."` and its first
`limit - 3` characters equal the first `limit - 3` characters of `text`. -/
theorem fixedLabel_fixed_width (text : List Char) (limit : Nat) (h3 : 3 ≤ limit) :
    (fixedLabelConstruct text limit).length = limit ∧
    (text.length < limit →
      fixedLabelConstruct text limit =
        text ++ List.replicate (limit - text.length) ' ') ∧
    (text.length = limit → fixedLabelConstruct text limit = text) ∧
    (text.length ≤ limit →
      (fixedLabelConstruct text limit).take text.length = text) ∧
    (limit < text.length →
      (fixedLabelConstruct text limit).drop (limit - 3) = ['.', '.', '.'] ∧
      (fixedLabelConstruct text limit).take (limit - 3) =
        text.take (limit - 3)) := by
  unfold fixedLabelConstruct pySliceTo
  rcases lt_trichotomy text.length limit with hlt | heq | hgt
  · rw [if_pos hlt]
    refine ⟨?_, fun _ => rfl, fun h => absurd h (by omega), fun _ => ?_, fun h => absurd h (by omega)⟩
    · simp; omega
    · rw [List.take_append_eq_append_take, List.take_length]
      simp
  · rw [if_neg (by omega), if_pos heq]
    exact ⟨heq, fun h => absurd h (by omega), fun _ => rfl,
      fun _ => by rw [List.take_length], fun h => absurd h (by omega)⟩
  · rw [if_neg (by omega), if_neg (by omega), if_pos (by omega)]
    have htn : ((limit : Int) - 3).toNat = limit - 3 := by omega
    rw [htn]
    have hlen : (text.take (limit - 3)).length = limit - 3 := by
      rw [List.length_take]; omega
    refine ⟨?_, fun h => absurd h (by omega), fun h => absurd h (by omega),
      fun h => absurd h (by omega), fun _ => ⟨?_, ?_⟩⟩
    · rw [List.length_append, hlen]; simp; omega
    · rw [List.drop_append_eq_append_drop, hlen, List.drop_eq_nil_of_le (by omega)]
      simp
    · rw [List.take_append_eq_append_take, hlen, List.take_take]
      simp

/-- Concrete instance of `fixedLabel_fixed_width` at the spec scenario
`FixedLabel("hello world", 8)`. -/
theorem fixedLabel_fixed_width_witness :
    3 ≤ 8 ∧
    ((fixedLabelConstruct "hello world".toList 8).length = 8 ∧
    ("hello world".toList.length < 8 →
      fixedLabelConstruct "hello world".toList 8 =
        "hello world".toList ++ List.replicate (8 - "hello world".toList.length) ' ') ∧
    ("hello world".toList.length = 8 →
      fixedLabelConstruct "hello world".toList 8 = "hello world".toList) ∧
    ("hello world".toList.length ≤ 8 →
      (fixedLabelConstruct "hello world".toList 8).take "hello world".toList.length =
        "hello world".toList) ∧
    (8 < "hello world".toList.length →
      (fixedLabelConstruct "hello world".toList 8).drop (8 - 3) = ['.', '.', '.'] ∧
      (fixedLabelConstruct "hello world".toList 8).take (8 - 3) =
        "hello world".toList.take (8 - 3))) :=
  ⟨by decide, fixedLabel_fixed_width "hello world".toList 8 (by decide)⟩

/-- Claim C9: for every `FixedLabel` with `limit < 3` and `len(text) > limit`,
the truncation branch runs with a negative slice index; when
`len(text) ≥ 3 - limit` the result is `text` with its last `3 - limit`
characters removed followed by `"..."`, so its length is
`len(text) + limit`, not `limit`: the fixed-width invariant fails. -/
theorem fixedLabel_small_limit (text : List Char) (limit : Nat)
    (hl : limit < 3) (hgt : limit < text.length) (hge : 3 - limit ≤ text.length) :
    fixedLabelConstruct text limit =
      text.take (text.length - (3 - limit)) ++ ['.', '.', '.'] ∧
    (fixedLabelConstruct text limit).length = text.length + limit ∧
    (fixedLabelConstruct text limit).length ≠ limit := by
  unfold fixedLabelConstruct pySliceTo
  rw [if_neg (by omega), if_neg (by omega), if_neg (by omega)]
  have htn : ((3 : Int) - (limit : Int)).toNat = 3 - limit := by omega
  have hneg : -((limit : Int) - 3) = (3 : Int) - (limit : Int) := by ring
  rw [hneg, htn]
  refine ⟨rfl, ?_, ?_⟩
  · rw [List.length_append, List.length_take]; simp; omega
  · rw [List.length_append, List.length_take]; simp; omega

/-- Concrete instance of `fixedLabel_small_limit` at `FixedLabel("xyz", 2)`,
whose display is `"xy..."` of length 5, not 2. -/
theorem fixedLabel_small_limit_witness :
    (2 < 3 ∧ 2 < "xyz".toList.length ∧ 3 - 2 ≤ "xyz".toList.length) ∧
    (fixedLabelConstruct "xyz".toList 2 =
      "xyz".toList.take ("xyz".toList.length - (3 - 2)) ++ ['.', '.', '.'] ∧
    (fixedLabelConstruct "xyz".toList 2).length = "xyz".toList.length + 2 ∧
    (fixedLabelConstruct "xyz".toList 2).length ≠ 2) :=
  ⟨⟨by decide, by decide, by decide⟩,
    fixedLabel_small_limit "xyz".toList 2 (by decide) (by decide) (by decide)⟩

/-- The constructor `ScrollingTextBox.__init__`: the line buffer starts as `limit` empty
strings. -/
def stbInit (limit : Nat) : List String := List.replicate limit ""

/-- The method `ScrollingTextBox.print(text)` acting on the line buffer: if
`len(buffer) >= limit` then `pop(0)` — an unguarded `IndexError`, modelled as
`none`, when the buffer is empty — then append `text`.  (The call then prints
every line of the resulting buffer.) -/
def stbAppend (limit : Nat) (buf : List String) (text : String) :
    Option (List String) :=
  if limit ≤ buf.length then
    match buf with
    | [] => none
    | _ :: rest => some (rest ++ [text])
  else
    some (buf ++ [text])

/-- A sequence of `ScrollingTextBox.print` calls; a raised `IndexError`
aborts the sequence. -/
def stbAppendMany (limit : Nat) (buf : List String) :
    List String → Option (List String)
  | [] => some buf
  | t :: ts =>
    match stbAppend limit buf t with
    | none => none
    | some b2 => stbAppendMany limit b2 ts

example : stbAppendMany 3 (stbInit 3) ["a", "b", "c", "d"] =
    some ["b", "c", "d"] := by decide

/-- Helper: starting from a buffer already at capacity, a successful sequence
of appends leaves the last `lines.length` elements dropped from the front of
`buf ++ lines`. -/
theorem stbAppendMany_drop (limit : Nat) :
    ∀ (lines buf r : List String), buf.length = limit →
      stbAppendMany limit buf lines = some r →
      r = (buf ++ lines).drop lines.length := by
  intro lines
  induction lines with
  | nil =>
    intro buf r hb h
    simp only [stbAppendMany, Option.some.injEq] at h
    simp [h.symm]
  | cons t ts ih =>
    intro buf r hb h
    simp only [stbAppendMany] at h
    unfold stbAppend at h
    rw [if_pos (by omega)] at h
    cases buf with
    | nil => exact absurd h (by simp)
    | cons b bs =>
      simp only at h
      have hlen : (bs ++ [t]).length = limit := by
        simp at hb ⊢; omega
      have := ih (bs ++ [t]) r hlen h
      rw [this, List.append_assoc, List.singleton_append]
      simp only [List.cons_append, List.length_cons, List.drop_succ_cons]

/-- Claim C3: `ScrollingTextBox.print` evicts the oldest buffered line
(index 0) exactly when the buffer length is already at or over `limit`, then
appends the new line; after any successful sequence of `k` appends with
`k > limit` the buffer holds exactly the last `limit` appended lines in
append order; the buffer length is `limit` after construction and after
every successful append. -/
theorem scrollingTextBox_last_limit (limit : Nat) (lines buf : List String)
    (h : stbAppendMany limit (stbInit limit) lines = some buf)
    (hk : limit < lines.length) :
    buf = lines.drop (lines.length - limit) ∧
    buf.length = limit ∧
    (stbInit limit).length = limit ∧
    (∀ b t, b.length < limit → stbAppend limit b t = some (b ++ [t])) ∧
    (∀ b t, limit ≤ b.length → b ≠ [] →
      stbAppend limit b t = some (b.drop 1 ++ [t])) ∧
    (∀ b t r2, b.length = limit → stbAppend limit b t = some r2 →
      r2.length = limit) := by
  have hinit : (stbInit limit).length = limit := by simp [stbInit]
  have hbuf := stbAppendMany_drop limit lines (stbInit limit) buf hinit h
  have hdrop : buf = lines.drop (lines.length - limit) := by
    rw [hbuf, List.drop_append_eq_append_drop,
      List.drop_eq_nil_of_le (by omega), hinit]
    simp
  refine ⟨hdrop, ?_, hinit, ?_, ?_, ?_⟩
  · rw [hdrop, List.length_drop]; omega
  · intro b t hlt
    unfold stbAppend
    rw [if_neg (by omega)]
  · intro b t hge hne
    unfold stbAppend
    rw [if_pos hge]
    cases b with
    | nil => exact absurd rfl hne
    | cons x xs => simp
  · intro b t r2 hb hs
    unfold stbAppend at hs
    rw [if_pos (by omega)] at hs
    cases b with
    | nil => exact absurd hs (by simp)
    | cons x xs =>
      simp only [Option.some.injEq] at hs
      rw [← hs]
      simp at hb ⊢
      omega

/-- Concrete instance of `scrollingTextBox_last_limit`: the spec scenario
`ScrollingTextBox(limit=3)` after appending `"a","b","c","d"` has buffer
`["b","c","d"]`. -/
theorem scrollingTextBox_last_limit_witness :
    (stbAppendMany 3 (stbInit 3) ["a", "b", "c", "d"] =
        some ["b", "c", "d"] ∧ 3 < 4) ∧
    ((["b", "c", "d"] : List String) =
        (["a", "b", "c", "d"] : List String).drop (4 - 3) ∧
    (["b", "c", "d"] : List String).length = 3 ∧
    (stbInit 3).length = 3 ∧
    (∀ b t, b.length < 3 → stbAppend 3 b t = some (b ++ [t])) ∧
    (∀ b t, 3 ≤ b.length → b ≠ [] →
      stbAppend 3 b t = some (b.drop 1 ++ [t])) ∧
    (∀ b t r2, b.length = 3 → stbAppend 3 b t = some r2 →
      r2.length = 3)) := by
  refine ⟨⟨by decide, by decide⟩, ?_⟩
  have := scrollingTextBox_last_limit 3 ["a", "b", "c", "d"] ["b", "c", "d"]
    (by decide) (by decide)
  simpa using this

/-- Claim C10: for a `ScrollingTextBox` constructed with `limit = 0` the line
buffer is initially empty, yet the first append takes the eviction branch
(`0 >= 0`) and pops index 0 of the empty buffer, so every append on a
limit-0 box fails with an unguarded index error. -/
theorem scrollingTextBox_zero_limit :
    stbInit 0 = [] ∧ ∀ t : String, stbAppend 0 (stbInit 0) t = none :=
  ⟨rfl, fun _ => rfl⟩

/-- A widget's `print()` call as the layout loop observes it: either the list
of lines it writes, or the exception it raises. -/
def WidgetRun := Except String (List String)

/-- The method `Screen.print_layout`: for each widget of the layout, in order, call its
`print()`, then write the separator.  The result is the lines written before
returning or raising, paired with the raised exception if any; a raised
exception stops the loop at once. -/
def printLayout (sep : String) : List WidgetRun → List String × Option String
  | [] => ([], none)
  | Except.error e :: _ => ([], some e)
  | Except.ok out :: ws =>
    let rest := printLayout sep ws
    (out ++ sep :: rest.1, rest.2)

example :
    printLayout "|" [Except.ok ["a"], Except.ok ["b", "c"]] =
      (["a", "|", "b", "c", "|"], none) := by decide

example :
    printLayout "|" [Except.ok ["a"], Except.error "boom", Except.ok ["z"]] =
      (["a", "|"], some "boom") := by decide

/-- Claim C4: `print_layout` renders each widget exactly once in layout order,
writing the separator after every widget including the last; and a widget
failure propagates at once, leaving the remaining widgets unrendered.
The first conjunct is the all-success run; the second shows a run that fails
at the first erroring widget emits exactly the earlier widgets' output (with
separators) regardless of the widgets after the failure. -/
theorem printLayout_order_and_abort (sep : String) (outs : List (List String))
    (e : String) (rest : List WidgetRun) :
    printLayout sep (outs.map Except.ok) =
      ((outs.map (fun o => o ++ [sep])).flatten, none) ∧
    printLayout sep (outs.map Except.ok ++ Except.error e :: rest) =
      ((outs.map (fun o => o ++ [sep])).flatten, some e) := by
  induction outs with
  | nil => exact ⟨rfl, rfl⟩
  | cons o os ih =>
    constructor
    · simp [printLayout, ih.1, List.append_assoc]
    · simp [printLayout, ih.2, List.append_assoc]

/-- The method `Header.print`: writes the text surrounded by one leading and one
trailing space (the style is a console argument, not part of the text). -/
def headerPrint (text : String) : List String := [" " ++ text ++ " "]

/-- The markup line `DataFrame.print` writes for one `(text, color)` pair:
`f'[{color}]+[/{color}] {text}'`. -/
def dataFrameLine (p : String × String) : String :=
  "[" ++ p.2 ++ "]+[/" ++ p.2 ++ "] " ++ p.1

/-- The data lines of `DataFrame.print`: one line per pair of
`zip(data, colors)`. -/
def dataFrameDataLines (data colors : List String) : List String :=
  (data.zip colors).map dataFrameLine

/-- The method `DataFrame.print`: render the header when present, then the data lines. -/
def dataFramePrint (header : Option String) (data colors : List String) :
    List String :=
  (match header with
   | some h => headerPrint h
   | none => []) ++ dataFrameDataLines data colors

example :
    dataFramePrint none ["x", "y", "z"] ["red", "green"] =
      ["[red]+[/red] x", "[green]+[/green] y"] := by decide

/-- Claim C5: `DataFrame.print` emits exactly
`min(len(data), len(colors))` data lines — entries beyond the shorter
sequence are silently dropped — and the i-th emitted line pairs the i-th
data string with the i-th color directive. -/
theorem dataFrame_min_lines (data colors : List String) :
    (dataFrameDataLines data colors).length =
      min data.length colors.length ∧
    dataFramePrint none data colors = dataFrameDataLines data colors ∧
    (∀ (i : Nat) (t c : String), data[i]? = some t → colors[i]? = some c →
      (dataFrameDataLines data colors)[i]? = some (dataFrameLine (t, c))) ∧
    (∀ (j : Nat), min data.length colors.length ≤ j →
      (dataFrameDataLines data colors)[j]? = none) := by
  refine ⟨?_, rfl, ?_, ?_⟩
  · simp [dataFrameDataLines]
  · intro i t c ht hc
    have hz : (data.zip colors)[i]? = some (t, c) :=
      List.getElem?_zip_eq_some.mpr ⟨ht, hc⟩
    rw [dataFrameDataLines, List.getElem?_map, hz, Option.map_some']
  · intro j hj
    rw [dataFrameDataLines, List.getElem?_map, List.getElem?_eq_none]
    · rfl
    · rw [List.length_zip]; omega

/-- Concrete instance of `dataFrame_min_lines` at the spec scenario
`DataFrame(data=["x","y","z"], colors=["red","green"])`: exactly two lines,
the first pairing `"x"` with `"red"`; `"z"` is dropped. -/
theorem dataFrame_min_lines_witness :
    (["x", "y", "z"] : List String)[0]? = some "x" ∧
    (["red", "green"] : List String)[0]? = some "red" ∧
    (dataFrameDataLines ["x", "y", "z"] ["red", "green"]).length =
      min (["x", "y", "z"] : List String).length
        (["red", "green"] : List String).length ∧
    (dataFrameDataLines ["x", "y", "z"] ["red", "green"])[0]? =
      some (dataFrameLine ("x", "red")) ∧
    (dataFrameDataLines ["x", "y", "z"] ["red", "green"])[2]? = none :=
  ⟨by decide, by decide,
    (dataFrame_min_lines ["x", "y", "z"] ["red", "green"]).1,
    (dataFrame_min_lines ["x", "y", "z"] ["red", "green"]).2.2.1 0 "x" "red"
      (by decide) (by decide),
    (dataFrame_min_lines ["x", "y", "z"] ["red", "green"]).2.2.2 2 (by decide)⟩

/-- The bold numbered line `Selector.print` writes for choice number `i` and
label `k`: `f'[b]\x7bi\x7d. \x7bkey\x7d[/]'`. -/
def selectorLabelLine (i : Nat) (k : String) : String :=
  "[b]" ++ toString i ++ ". " ++ k ++ "[/]"

/-- The indented description line of `Selector.print`. -/
def selectorDescLine (v : String) : String := "   " ++ v

/-- The inner loop of `Selector.print` over the keys of one choice mapping
(a mapping modelled as its ordered key-value pairs): two printed lines per
pair, incrementing the running counter. -/
def selectorInner (st : List String × Nat) (choice : List (String × String)) :
    List String × Nat :=
  choice.foldl
    (fun s kv =>
      (s.1 ++ [selectorLabelLine s.2 kv.1, selectorDescLine kv.2], s.2 + 1)) st

/-- The method `Selector.print`: header first when present, then the outer loop over the
choice mappings with the counter `_i` starting at 1. -/
def selectorPrint (header : Option String)
    (choices : List (List (String × String))) : List String :=
  (match header with
   | some h => headerPrint h
   | none => []) ++ (choices.foldl selectorInner ([], 1)).1

/-- Numbering as the spec words it: consecutive numbers starting at `i` over
an already-flattened list of (label, description) pairs, one label line and
one description line per pair. -/
def numberedFrom (i : Nat) : List (String × String) → List String
  | [] => []
  | kv :: ps =>
    selectorLabelLine i kv.1 :: selectorDescLine kv.2 :: numberedFrom (i + 1) ps

example :
    selectorPrint none [[("a", "d1"), ("b", "d2")], [("c", "d3")]] =
      ["[b]1. a[/]", "   d1", "[b]2. b[/]", "   d2", "[b]3. c[/]", "   d3"] := by
  decide

/-- Helper: the inner fold appends the numbered lines of one choice and
advances the counter by the number of its pairs. -/
theorem selectorInner_eq (choice : List (String × String)) :
    ∀ (acc : List String) (i : Nat),
      selectorInner (acc, i) choice =
        (acc ++ numberedFrom i choice, i + choice.length) := by
  induction choice with
  | nil => intro acc i; simp [selectorInner, numberedFrom]
  | cons kv ps ih =>
    intro acc i
    simp only [selectorInner, List.foldl_cons] at ih ⊢
    rw [ih]
    simp [numberedFrom, List.append_assoc]
    omega

/-- Helper: `numberedFrom` distributes over append, advancing the counter. -/
theorem numberedFrom_append (ps : List (String × String)) :
    ∀ (qs : List (String × String)) (i : Nat),
      numberedFrom i (ps ++ qs) =
        numberedFrom i ps ++ numberedFrom (i + ps.length) qs := by
  induction ps with
  | nil => intro qs i; simp [numberedFrom]
  | cons kv ps ih =>
    intro qs i
    simp only [List.cons_append, numberedFrom, List.append_eq, List.length_cons]
    rw [ih, show i + (ps.length + 1) = i + 1 + ps.length from by omega]

/-- Helper: the outer fold of `Selector.print` produces the numbered lines of
the flattened pairs. -/
theorem selectorFold_eq (choices : List (List (String × String))) :
    ∀ (acc : List String) (i : Nat),
      choices.foldl selectorInner (acc, i) =
        (acc ++ numberedFrom i choices.flatten,
          i + choices.flatten.length) := by
  induction choices with
  | nil => intro acc i; simp [numberedFrom]
  | cons c cs ih =>
    intro acc i
    simp only [List.foldl_cons, selectorInner_eq, ih, List.flatten_cons,
      numberedFrom_append, List.append_assoc, List.length_append]
    rw [Nat.add_assoc]

/-- Helper: in `numberedFrom j ps` the pair at flattened index `i` yields the
label line numbered `j + i` at output position `2 * i` and its description
line right after. -/
theorem numberedFrom_getElem (ps : List (String × String)) :
    ∀ (i j : Nat) (kv : String × String), ps[i]? = some kv →
      (numberedFrom j ps)[2 * i]? = some (selectorLabelLine (j + i) kv.1) ∧
      (numberedFrom j ps)[2 * i + 1]? = some (selectorDescLine kv.2) := by
  induction ps with
  | nil => intro i j kv h; simp at h
  | cons p ps ih =>
    intro i j kv h
    match i with
    | 0 =>
      simp at h
      simp [numberedFrom, h]
    | Nat.succ i =>
      simp only [List.getElem?_cons_succ] at h
      have h2 : 2 * (i + 1) = 2 * i + 1 + 1 := by omega
      rw [h2]
      simp only [numberedFrom, List.getElem?_cons_succ]
      have := ih i (j + 1) kv h
      rwa [show j + 1 + i = j + (i + 1) by omega] at this

/-- Claim C6: `Selector.print` numbers the flattened sequence of
(label, description) pairs — iterating the choice mappings in order and the
keys within each — with a counter starting at 1 increasing by exactly 1 per
pair, regardless of how many keys a single mapping holds: the output equals
the consecutive numbering of the flattened pairs, and the pair at flattened
index `i` is printed with number `i + 1`. -/
theorem selector_numbering (header : Option String)
    (choices : List (List (String × String))) :
    selectorPrint header choices =
      (match header with
       | some h => headerPrint h
       | none => []) ++ numberedFrom 1 choices.flatten ∧
    (∀ (i : Nat) (kv : String × String), choices.flatten[i]? = some kv →
      (numberedFrom 1 choices.flatten)[2 * i]? =
        some (selectorLabelLine (i + 1) kv.1) ∧
      (numberedFrom 1 choices.flatten)[2 * i + 1]? =
        some (selectorDescLine kv.2)) := by
  constructor
  · unfold selectorPrint
    rw [selectorFold_eq]
    simp
  · intro i kv h
    have := numberedFrom_getElem choices.flatten i 1 kv h
    rwa [show 1 + i = i + 1 by omega] at this

/-- Concrete instance of `selector_numbering`: with a two-key first mapping
and a one-key second mapping, the third flattened pair is numbered 3 (no
reset between mappings). -/
theorem selector_numbering_witness :
    ((([("a", "d1"), ("b", "d2")] :: [("c", "d3")] :: []).flatten)[2]? =
        some ("c", "d3")) ∧
    selectorPrint none [[("a", "d1"), ("b", "d2")], [("c", "d3")]] =
      numberedFrom 1
        ([[("a", "d1"), ("b", "d2")], [("c", "d3")]] :
          List (List (String × String))).flatten ∧
    (numberedFrom 1
        ([[("a", "d1"), ("b", "d2")], [("c", "d3")]] :
          List (List (String × String))).flatten)[2 * 2]? =
      some (selectorLabelLine (2 + 1) "c") := by
  refine ⟨by decide, ?_, ?_⟩
  · have := (selector_numbering none
      [[("a", "d1"), ("b", "d2")], [("c", "d3")]]).1
    simpa using this
  · exact ((selector_numbering none
      [[("a", "d1"), ("b", "d2")], [("c", "d3")]]).2 2 ("c", "d3")
      (by decide)).1

/-- A Python value as `Selector.ask` can produce one: an `int` or a `bool`.
In Python `bool` is a subtype of `int` and `False == 0` holds. -/
inductive PyVal
  | vint (n : Int)
  | vbool (b : Bool)
deriving DecidableEq

/-- Python `==` on such values: a boolean compares equal to its integer
value, so `False == 0` and `True == 1`. -/
def pyEq : PyVal → PyVal → Bool
  | .vint a, .vint b => a == b
  | .vbool a, .vbool b => a == b
  | .vint a, .vbool b => a == (if b then 1 else 0)
  | .vbool a, .vint b => (if a then (1 : Int) else 0) == b

/-- Decimal digits read most significant first; `none` when the list is
empty or holds a non-digit character. -/
def digitsToNat : List Char → Option Nat
  | [] => none
  | cs =>
    cs.foldl
      (fun acc c =>
        match acc with
        | none => none
        | some a =>
          if c.isDigit then some (a * 10 + (c.toNat - 48)) else none)
      (some 0)

/-- Python `int(s)` applied to a line of input, modelled for optional
surrounding whitespace and an optional sign followed by decimal digits;
`none` models the raised `ValueError`. -/
def pyIntOfString (s : String) : Option Int :=
  let cs := ((s.toList.dropWhile Char.isWhitespace).reverse.dropWhile
    Char.isWhitespace).reverse
  match cs with
  | '-' :: rest => (digitsToNat rest).map (fun n => -(n : Int))
  | '+' :: rest => (digitsToNat rest).map (fun n => (n : Int))
  | rest => (digitsToNat rest).map (fun n => (n : Int))

/-- The Python exceptions relevant here: `ValueError` from `int`, and
`AttributeError` from accessing the missing `ctypes.windll` attribute. -/
inductive PyExc
  | valueError
  | attributeError
deriving DecidableEq

/-- What happens at the interactive input prompt inside `Selector.ask`. -/
inductive InputEvent
  | line (s : String)
  | interrupt

/-- The observable outcome of `Selector.ask`: a returned Python value or a
propagated exception. -/
inductive AskOutcome
  | returns (v : PyVal)
  | raises (e : PyExc)
deriving DecidableEq

/-- The method `Selector.ask` after rendering: `int(input)` is returned; the
surrounding `try` catches only `KeyboardInterrupt` and then returns the
Python constant `False`, so a `ValueError` from `int` propagates. -/
def ask (ev : InputEvent) : AskOutcome :=
  match ev with
  | .line s =>
    match pyIntOfString s with
    | some n => .returns (.vint n)
    | none => .raises .valueError
  | .interrupt => .returns (.vbool false)

example : ask (.line "12") = .returns (.vint 12) := by decide

example : ask (.line " -3 ") = .returns (.vint (-3)) := by decide

example : ask (.line "abc") = .raises .valueError := by decide

/-- Claim C1 counterexample: on a user interrupt `ask` returns the Python
value `False`, and under Python equality that value is conflated with the
integer success value `0` returned for the input line `"0"` — the cancelled
result is not distinct from every integer success value. -/
theorem ask_conflates_cancel_with_zero :
    ask .interrupt = .returns (.vbool false) ∧
    ask (.line "0") = .returns (.vint 0) ∧
    pyEq (.vbool false) (.vint 0) = true := by decide

/-- Claim C1, amended: `ask` parses the input line with `int` and returns
the integer; a non-integer line raises `ValueError` to the caller; a user
interrupt is caught and `ask` returns the Python value `False` — never
re-raising the interrupt — but that value compares equal (`==`, since
Python's `bool` is an `int` subtype) to the integer `0`, so cancellation is
conflated with an input of `0`. -/
theorem ask_outcomes (s t : String) (n : Int)
    (hs : pyIntOfString s = some n) (ht : pyIntOfString t = none) :
    ask (.line s) = .returns (.vint n) ∧
    ask (.line t) = .raises .valueError ∧
    ask .interrupt = .returns (.vbool false) ∧
    (∀ e, ask .interrupt ≠ .raises e) ∧
    pyEq (.vbool false) (.vint 0) = true := by
  refine ⟨?_, ?_, rfl, ?_, rfl⟩
  · simp only [ask, hs]
  · simp only [ask, ht]
  · intro e h
    simp [ask] at h

/-- Concrete instance of `ask_outcomes` at the lines `"42"` and `"abc"`. -/
theorem ask_outcomes_witness :
    (pyIntOfString "42" = some 42 ∧ pyIntOfString "abc" = none) ∧
    (ask (.line "42") = .returns (.vint 42) ∧
    ask (.line "abc") = .raises .valueError ∧
    ask .interrupt = .returns (.vbool false) ∧
    (∀ e, ask .interrupt ≠ .raises e) ∧
    pyEq (.vbool false) (.vint 0) = true) :=
  ⟨⟨by decide, by decide⟩, ask_outcomes "42" "abc" 42 (by decide) (by decide)⟩

/-- An access through `ctypes.windll` on the platform named `sysName` (the
value of `platform.system()`): the `windll` attribute exists only on
Windows, so on every other platform the access raises `AttributeError`
before the named kernel32 function can run. -/
def windllCall (sysName : String) (result : α) : Except PyExc α :=
  if sysName = "Windows" then Except.ok result else Except.error .attributeError

/-- The fields of a constructed `Screen` the claims need: the `_updates`
counter and the console handle stored by `__init__` (its value is opaque
here). -/
structure ScreenState where
  updates : Nat
  ciHandle : Unit

/-- The constructor `Screen.__init__`: with no platform guard it evaluates
`ctypes.windll.kernel32.GetStdHandle(-11)` and stores the handle, so the
constructor itself raises wherever `ctypes.windll` is missing. -/
def screenInit (sysName : String) : Except PyExc ScreenState :=
  (windllCall sysName ()).map fun h => { updates := 0, ciHandle := h }

/-- The shell command `Screen.clear` dispatches on the platform:
`system('cls') if oprsys() == 'Windows' else system('clear')`. -/
def clearCommand (sysName : String) : String :=
  if sysName = "Windows" then "cls" else "clear"

/-- The method `Screen.hide_cursor`: `GetConsoleCursorInfo` (a `ctypes.windll` access),
then `ci.visible = False`, then `SetConsoleCursorInfo` (another access);
the result is the visibility bit written back. -/
def hideCursor (sysName : String) (visible : Bool) : Except PyExc Bool :=
  match windllCall sysName visible with
  | Except.error e => Except.error e
  | Except.ok _ =>
    match windllCall sysName () with
    | Except.error e => Except.error e
    | Except.ok _ => Except.ok false

/-- The method `Screen.show_cursor`: same shape as `hide_cursor` with
`ci.visible = True`. -/
def showCursor (sysName : String) (visible : Bool) : Except PyExc Bool :=
  match windllCall sysName visible with
  | Except.error e => Except.error e
  | Except.ok _ =>
    match windllCall sysName () with
    | Except.error e => Except.error e
    | Except.ok _ => Except.ok true

/-- Claim C7: invoking `hide_cursor` or `show_cursor` where the OS cursor
primitive does not exist fails with a reported error — the missing
`ctypes.windll` attribute — and never succeeds as a silent no-op, so a
caller can branch on the failure; on Windows both calls succeed and write
the corresponding visibility bit. -/
theorem cursor_unsupported_fails (sysName : String) (visible : Bool)
    (h : sysName ≠ "Windows") :
    hideCursor sysName visible = .error .attributeError ∧
    showCursor sysName visible = .error .attributeError ∧
    (∀ b, hideCursor sysName visible ≠ .ok b) ∧
    (∀ b, showCursor sysName visible ≠ .ok b) ∧
    hideCursor "Windows" visible = .ok false ∧
    showCursor "Windows" visible = .ok true := by
  unfold hideCursor showCursor windllCall
  rw [if_neg h]
  refine ⟨rfl, rfl, ?_, ?_, by simp, by simp⟩ <;>
    exact fun b hb => nomatch hb

/-- Concrete instance of `cursor_unsupported_fails` on Linux. -/
theorem cursor_unsupported_fails_witness :
    ("Linux" ≠ "Windows") ∧
    (hideCursor "Linux" true = .error .attributeError ∧
    showCursor "Linux" true = .error .attributeError ∧
    (∀ b, hideCursor "Linux" true ≠ .ok b) ∧
    (∀ b, showCursor "Linux" true ≠ .ok b) ∧
    hideCursor "Windows" true = .ok false ∧
    showCursor "Windows" true = .ok true) :=
  ⟨by decide, cursor_unsupported_fails "Linux" true (by decide)⟩

/-- Claim C8: constructing a `Screen` at all acquires the Windows-only
console handle with no platform check, so on every platform lacking
`ctypes.windll` the constructor itself raises and no `ScreenState` is ever
obtainable — `clear`, `print` and `print_layout` are unreachable there —
even though `clear` itself dispatches on the platform (`cls` on Windows,
`clear` elsewhere). -/
theorem screen_init_requires_windll (sysName : String)
    (h : sysName ≠ "Windows") :
    screenInit sysName = .error .attributeError ∧
    (∀ st, screenInit sysName ≠ .ok st) ∧
    (∃ st, screenInit "Windows" = .ok st) ∧
    clearCommand sysName = "clear" ∧
    clearCommand "Windows" = "cls" ∧
    clearCommand sysName ≠ clearCommand "Windows" := by
  refine ⟨?_, ?_, ⟨{ updates := 0, ciHandle := () }, ?_⟩, ?_, ?_, ?_⟩ <;>
    simp [screenInit, clearCommand, windllCall, Except.map, h]

/-- Concrete instance of `screen_init_requires_windll` on Linux. -/
theorem screen_init_requires_windll_witness :
    ("Linux" ≠ "Windows") ∧
    (screenInit "Linux" = .error .attributeError ∧
    (∀ st, screenInit "Linux" ≠ .ok st) ∧
    (∃ st, screenInit "Windows" = .ok st) ∧
    clearCommand "Linux" = "clear" ∧
    clearCommand "Windows" = "cls" ∧
    clearCommand "Linux" ≠ clearCommand "Windows") :=
  ⟨by decide, screen_init_requires_windll "Linux" (by decide)⟩

end Rovnoui
